import Mathlib

/-!
Shallow embedding of the SNAFU runtime library (`src/lib.rs`): the
context-attachment protocol (`IntoError`, `FromString`, `ResultExt`,
`OptionExt`), the once-per-process backtrace gate, the `ensure` and
`whatever` control-flow constructs, and the `AsErrorSource` view.

Rust's `Result<T, E>` is embedded as an inductive `Result T E`; closures that
may perform effects are embedded twice: once as pure functions and once in an
explicit state-passing style (`σ → α × σ`) so that the number of invocations of
a closure can be observed.  Machine state touched by the backtrace subsystem
(the `Once` guard and the `AtomicBool`) is an explicit `BacktraceState` record
threaded through `generate`.
-/

namespace Snafu

/-- Models the opaque captured stack snapshot.  The concrete capture routine
lives in the backtrace shim module, which is not part of the runtime core; the
claims below only ever inspect presence versus absence of a backtrace. -/
structure Backtrace where
deriving DecidableEq, Repr

/-- Modelled from the spec: `Backtrace::generate` comes from the
feature-selected backtrace module (`backtrace_shim` / `backtrace_inert`), whose
file is not part of the runtime core under analysis; per the spec, capture
never fails, so the model always produces a (content-free) snapshot. -/
def Backtrace.generate : Backtrace := ⟨⟩

/-- `pub struct NoneError;` — the sentinel cause used when converting an
absent `Option` into an error. -/
structure NoneError where
deriving DecidableEq, Repr

/-- Embedding of Rust's `Result<T, E>`. -/
inductive Result (T : Type u) (E : Type v) where
  | ok : T → Result T E
  | err : E → Result T E
deriving DecidableEq, Repr

/-- Rust's `Result::map_err` (with a pure closure). -/
def Result.map_err (r : Result T E) (f : E → E2) : Result T E2 :=
  match r with
  | .ok v => .ok v
  | .err e => .err (f e)

/-- Rust's `Result::map_err` with an effectful closure, in explicit
state-passing style: the closure receives the state and returns the new
state, so closure invocations are observable. -/
def Result.map_errS (r : Result T E) (f : E → σ → E2 × σ) (s : σ) :
    Result T E2 × σ :=
  match r with
  | .ok v => (.ok v, s)
  | .err e =>
    let p := f e s
    (.err p.1, p.2)

/-- Rust's `Result::is_ok`. -/
def Result.isOk (r : Result T E) : Bool :=
  match r with
  | .ok _ => true
  | .err _ => false

/-- Rust's `Option::ok_or_else` (with a pure closure). -/
def Option.ok_or_else (o : Option T) (f : Unit → E) : Result T E :=
  match o with
  | some v => .ok v
  | none => .err (f ())

/-- Rust's `Option::ok_or_else` with an effectful closure, in explicit
state-passing style. -/
def Option.ok_or_elseS (o : Option T) (f : σ → E × σ) (s : σ) :
    Result T E × σ :=
  match o with
  | some v => (.ok v, s)
  | none =>
    let p := f s
    (.err p.1, p.2)

/-- Models the standard `Error` capability (`std::error::Error`): a
display-able failure value. -/
class ErrorTrait (α : Type u) where
  describe : α → String

/-- `pub trait ErrorCompat` with its default `backtrace` method returning
`None` (src/lib.rs lines 638-643). -/
class ErrorCompat (α : Type u) where
  backtrace : α → Option Backtrace := fun _ => none

/-- `pub trait IntoError<E>` with associated type `Source`: combine a context
selector with an underlying cause to produce the domain error
(src/lib.rs lines 751-760). -/
class IntoError (C : Type u) (E : Type v) (S : outParam (Type w)) where
  into_error : C → S → E

/-- `pub trait FromString` with associated type `Source`: build an error from
a message, with or without an underlying cause (src/lib.rs lines 767-776). -/
class FromString (E : Type u) (S : outParam (Type v)) where
  without_source : String → E
  with_source : S → String → E

/-- `ResultExt::context` for `Result<T, E>` (src/lib.rs lines 416-422):
`self.map_err(|error| context.into_error(error))`. -/
def ResultExt.context [IntoError C E2 E] [ErrorTrait E2] [ErrorCompat E2]
    (self : Result T E) (context : C) : Result T E2 :=
  self.map_err (fun error => IntoError.into_error context error)

/-- `ResultExt::with_context` (src/lib.rs lines 424-434), pure-closure
embedding: `self.map_err(|error| { let context = context(); context.into_error(error) })`. -/
def ResultExt.with_context [IntoError C E2 E] [ErrorTrait E2] [ErrorCompat E2]
    (self : Result T E) (context : Unit → C) : Result T E2 :=
  self.map_err (fun error =>
    let context := context ()
    IntoError.into_error context error)

/-- `ResultExt::with_context` (src/lib.rs lines 424-434), state-passing
embedding of the same body, making invocations of the `context` closure
observable. -/
def ResultExt.with_contextS [IntoError C E2 E] [ErrorTrait E2] [ErrorCompat E2]
    (self : Result T E) (context : σ → C × σ) : σ → Result T E2 × σ :=
  self.map_errS (fun error s =>
    let p := context s
    (IntoError.into_error p.1 error, p.2))

/-- `ResultExt::eager_context`, deprecated alias whose default body is
`self.context(context)` (src/lib.rs lines 393-401). -/
def ResultExt.eager_context [IntoError C E2 E] [ErrorTrait E2] [ErrorCompat E2]
    (self : Result T E) (context : C) : Result T E2 :=
  ResultExt.context self context

/-- `ResultExt::with_eager_context`, deprecated alias whose default body is
`self.with_context(context)` (src/lib.rs lines 403-412). -/
def ResultExt.with_eager_context [IntoError C E2 E] [ErrorTrait E2] [ErrorCompat E2]
    (self : Result T E) (context : Unit → C) : Result T E2 :=
  ResultExt.with_context self context

/-- Models the reflexive `impl<T> From<T> for T` of the Rust standard
library, whose `from` returns its argument unchanged; `Into::into` at type
`E → E` dispatches to it. -/
def intoSelf (e : E) : E := e

/-- `OptionExt::context` for `Option<T>` (src/lib.rs lines 583-589):
`self.ok_or_else(|| context.into_error(NoneError))`. -/
def OptionExt.context [IntoError C E NoneError] [ErrorTrait E] [ErrorCompat E]
    (self : Option T) (context : C) : Result T E :=
  Option.ok_or_else self (fun _ => IntoError.into_error context NoneError.mk)

/-- `OptionExt::with_context` (src/lib.rs lines 591-598), pure-closure
embedding: `self.ok_or_else(|| context().into_error(NoneError))`. -/
def OptionExt.with_context [IntoError C E NoneError] [ErrorTrait E] [ErrorCompat E]
    (self : Option T) (context : Unit → C) : Result T E :=
  Option.ok_or_else self (fun _ => IntoError.into_error (context ()) NoneError.mk)

/-- `OptionExt::with_context` (src/lib.rs lines 591-598), state-passing
embedding of the same body. -/
def OptionExt.with_contextS [IntoError C E NoneError] [ErrorTrait E] [ErrorCompat E]
    (self : Option T) (context : σ → C × σ) : σ → Result T E × σ :=
  Option.ok_or_elseS self (fun s =>
    let p := context s
    (IntoError.into_error p.1 NoneError.mk, p.2))

/-- `OptionExt::whatever_context` (src/lib.rs lines 601-607):
`self.ok_or_else(|| FromString::without_source(context.into()))`.  The
`S: Into<String>` bound is specialised to `String` itself, where the
conversion is the identity. -/
def OptionExt.whatever_context {T E S : Type} [FromString E S]
    (self : Option T) (context : String) : Result T E :=
  Option.ok_or_else self (fun _ => FromString.without_source (S := S) context)

/-- `OptionExt::with_whatever_context` (src/lib.rs lines 610-620),
pure-closure embedding. -/
def OptionExt.with_whatever_context {T E S : Type} [FromString E S]
    (self : Option T) (context : Unit → String) : Result T E :=
  Option.ok_or_else self (fun _ =>
    let context := context ()
    FromString.without_source (S := S) context)

/-- `OptionExt::with_whatever_context` (src/lib.rs lines 610-620),
state-passing embedding of the same body. -/
def OptionExt.with_whatever_contextS {T E S σ : Type} [FromString E S]
    (self : Option T) (context : σ → String × σ) : σ → Result T E × σ :=
  Option.ok_or_elseS self (fun s =>
    let p := context s
    (FromString.without_source (S := S) p.1, p.2))

/-- `OptionExt::eager_context`, deprecated alias whose default body is
`self.context(context).map_err(Into::into)` (src/lib.rs lines 562-568);
`Into::into` here is the reflexive conversion at type `E`. -/
def OptionExt.eager_context [IntoError C E NoneError] [ErrorTrait E] [ErrorCompat E]
    (self : Option T) (context : C) : Result T E :=
  (OptionExt.context self context).map_err intoSelf

/-- `OptionExt::with_eager_context`, deprecated alias whose default body is
`self.with_context(context).map_err(Into::into)` (src/lib.rs lines 572-579). -/
def OptionExt.with_eager_context [IntoError C E NoneError] [ErrorTrait E] [ErrorCompat E]
    (self : Option T) (context : Unit → C) : Result T E :=
  (OptionExt.with_context self context).map_err intoSelf

/-- An instrumented closure: wraps a pure thunk so that each invocation
increments a counter threaded through the state-passing embeddings. -/
def tick (f : Unit → α) : Nat → α × Nat :=
  fun n => (f (), n + 1)

/-- A process environment: maps an environment-variable name to its value, if
set.  Models `std::env::var_os`. -/
def Env : Type := String → Option String

/-- The first environment variable consulted by the backtrace gate. -/
def rustLibBacktraceVar : String := "RUST_LIB_BACKTRACE"

/-- The second environment variable, consulted only when the first is absent. -/
def rustBacktraceVar : String := "RUST_BACKTRACE"

/-- The value that turns backtrace capture on. -/
def enabledMarker : String := "1"

/-- The state of the two statics inside `GenerateBacktrace::generate` for
`Option<Backtrace>` (src/lib.rs lines 805-806): `START: Once` (has the
one-time initializer run?) and `ENABLED: AtomicBool`. -/
structure BacktraceState where
  started : Bool
  enabled : Bool
deriving DecidableEq, Repr

/-- The statics at process start: `Once::new()` has not run its initializer
and `AtomicBool::new(false)`. -/
def BacktraceState.init : BacktraceState := ⟨false, false⟩

/-- The enablement computation inside the `call_once` closure
(src/lib.rs lines 810-812):
`env::var_os("RUST_LIB_BACKTRACE").or_else(|| env::var_os("RUST_BACKTRACE")).map_or(false, |v| v == "1")`. -/
def computeEnabled (env : Env) : Bool :=
  ((env rustLibBacktraceVar).orElse (fun _ => env rustBacktraceVar)).elim
    false (fun v => v == enabledMarker)

/-- `START.call_once(|| { ... ENABLED.store(enabled, ...) })`
(src/lib.rs lines 808-814): runs the initializer only if it has never run. -/
def callOnce (env : Env) (s : BacktraceState) : BacktraceState :=
  if s.started then s else { started := true, enabled := computeEnabled env }

/-- `GenerateBacktrace::generate` for `Option<Backtrace>`
(src/lib.rs lines 798-821): run the one-time initializer, then capture a
backtrace only when the memoized flag is set. -/
def generateOptionBacktrace (env : Env) (s : BacktraceState) :
    Option Backtrace × BacktraceState :=
  let s2 := callOnce env s
  (if s2.enabled then some Backtrace.generate else none, s2)

/-- A sequence of backtrace requests, each observing the process environment
in effect at that moment, threading the static state. -/
def runGenerates : List Env → BacktraceState → List (Option Backtrace) × BacktraceState
  | [], s => ([], s)
  | env :: rest, s =>
    let p := generateOptionBacktrace env s
    let q := runGenerates rest p.2
    (p.1 :: q.1, q.2)

/-- Modelled from the spec: the `fail` method emitted on every context
selector by the code-generation collaborator (§6) — absent from the runtime
core — which combines the selector with the `NoneError` sentinel cause and
wraps it in `Err`, per §4.5's option path. -/
def fail [IntoError C E NoneError] [ErrorTrait E] [ErrorCompat E]
    (self : C) : Result T E :=
  .err (IntoError.into_error self NoneError.mk)

/-- The `ensure!` macro (src/lib.rs lines 199-207):
`if !predicate { return context_selector.fail().map_err(Into::into); }`.
Its denotation in the enclosing fallible function: `ok ()` means control
falls through, `err` means the early return is taken.  The enclosing
function's implicit `Into` conversion is the explicit `into` argument. -/
def ensure [IntoError C E NoneError] [ErrorTrait E] [ErrorCompat E]
    (predicate : Bool) (context_selector : C) (into : E → E2) : Result Unit E2 :=
  if !predicate then
    (fail context_selector).map_err into
  else
    .ok ()

/-- The message-only form of the `whatever!` macro (src/lib.rs lines 273-279):
`return Err(FromString::without_source(format!(...)))`.  The already-formatted
message is the `message` argument; the denotation is always an early return. -/
def whateverMessageOnly {T E2 S : Type} [FromString E2 S] (message : String) : Result T E2 :=
  .err (FromString.without_source (S := S) message)

/-- The result-wrapping form of the `whatever!` macro (src/lib.rs
lines 280-292): on `Ok(v)` the macro evaluates to `v`; on `Err(e)` it
early-returns `Err(FromString::with_source(Into::into(e), format!(...)))`.
The enclosing `Into` conversion into the target's `Source` type is the
explicit `into` argument. -/
def whateverWithSource {T E E2 S : Type} [FromString E2 S] (into : E → S)
    (source : Result T E) (message : String) : Result T E2 :=
  match source with
  | .ok v => .ok v
  | .err e => .err (FromString.with_source (into e) message)

/-- The `Whatever` struct (src/lib.rs lines 886-891): an optional boxed
cause, an owned message, and a backtrace.  `Box<dyn std::error::Error>` is
represented by the type parameter `Src`, and the backtrace field by an
`Option Backtrace` per the §4.1 capability. -/
structure Whatever (Src : Type) where
  source : Option Src
  message : String
  backtrace : Option Backtrace

/-- Modelled from the spec: the derive-generated `FromString` implementation
for `Whatever` — emitted by the code-generation collaborator (§6), absent
from the runtime core.  Per §4.4 and the `#[snafu(source(from(Box<dyn ...>,
Some)))]` attribute, `without_source` stores the message and no cause,
`with_source` stores the message and `Some` of the cause; the backtrace
captured at construction time is the `bt` argument. -/
def Whatever.fromStringImpl (Src : Type) (bt : Option Backtrace) :
    FromString (Whatever Src) Src where
  without_source message := { source := none, message := message, backtrace := bt }
  with_source source message := { source := some source, message := message, backtrace := bt }

/-- Models `&(dyn Error + 'static)`: an error trait object — some erased
concrete type carrying the `Error` capability, together with a value of it. -/
structure ErrorObj where
  Ty : Type
  val : Ty
  inst : ErrorTrait Ty

/-- Models `dyn Error + Send + 'static`: the same trait object with a
compile-time thread-safety marker, which carries no data. -/
structure DynErrorSend where
  obj : ErrorObj

/-- Models `dyn Error + Sync + 'static`. -/
structure DynErrorSync where
  obj : ErrorObj

/-- Models `dyn Error + Send + Sync + 'static`. -/
structure DynErrorSendSync where
  obj : ErrorObj

/-- `impl AsErrorSource for dyn Error + 'static` (src/lib.rs lines 713-717):
returns `self`. -/
def dynAsErrorSource (self : ErrorObj) : ErrorObj := self

/-- `impl AsErrorSource for dyn Error + Send + 'static` (src/lib.rs
lines 719-723): returns `self`, the marker being erased by the trait-object
coercion, which keeps the same object. -/
def dynSendAsErrorSource (self : DynErrorSend) : ErrorObj := self.obj

/-- `impl AsErrorSource for dyn Error + Sync + 'static` (src/lib.rs
lines 725-729). -/
def dynSyncAsErrorSource (self : DynErrorSync) : ErrorObj := self.obj

/-- `impl AsErrorSource for dyn Error + Send + Sync + 'static` (src/lib.rs
lines 731-735). -/
def dynSendSyncAsErrorSource (self : DynErrorSendSync) : ErrorObj := self.obj

/-- The blanket `impl<T: Error + 'static> AsErrorSource for T` (src/lib.rs
lines 737-744): returns `self`, coerced into the trait object, which erases
only the static type and keeps the value. -/
def as_error_source {α : Type} [inst : ErrorTrait α] (self : α) : ErrorObj :=
  ⟨α, self, inst⟩

/-- Once the one-time initializer has run, every further backtrace request
leaves the static state untouched and answers from the memoized flag alone,
ignoring the environment it observes. -/
theorem runGenerates_from_started (b : Bool) :
    ∀ envs : List Env,
    runGenerates envs ⟨true, b⟩ =
      (envs.map (fun _ => if b then some Backtrace.generate else none), ⟨true, b⟩)
  | [] => rfl
  | env :: rest => by
    have ih := runGenerates_from_started b rest
    simp [runGenerates, generateOptionBacktrace, callOnce, ih]

/-- Claim C1: for every failing result, `ResultExt::context(selector)` returns
the error produced by combining the selector with the failure via
`IntoError::into_error`; for every absent option, `OptionExt::context(selector)`
returns the error produced by combining the selector with the sentinel
`NoneError` cause. -/
theorem claim1_context_combines_selector_with_cause
    {T E C E2 D E3 : Type} [IntoError C E2 E] [ErrorTrait E2] [ErrorCompat E2]
    [IntoError D E3 NoneError] [ErrorTrait E3] [ErrorCompat E3] :
    (∀ (e : E) (c : C),
      (ResultExt.context (.err e : Result T E) c : Result T E2)
        = .err (IntoError.into_error c e))
    ∧ (∀ d : D,
      (OptionExt.context (none : Option T) d : Result T E3)
        = .err (IntoError.into_error d NoneError.mk)) :=
  ⟨fun _ _ => rfl, fun _ => rfl⟩

/-- Claim C2: for every successful result and every present option, `context`
and `with_context` return the input unchanged, and in the lazy variant the
context-construction function is never invoked (an instrumented closure's
invocation counter stays at its initial value). -/
theorem claim2_success_passes_through_untouched
    {T E C E2 D E3 : Type} [IntoError C E2 E] [ErrorTrait E2] [ErrorCompat E2]
    [IntoError D E3 NoneError] [ErrorTrait E3] [ErrorCompat E3] :
    (∀ (v : T) (c : C),
      (ResultExt.context (.ok v : Result T E) c : Result T E2) = .ok v)
    ∧ (∀ (v : T) (f : Unit → C),
      (ResultExt.with_context (.ok v : Result T E) f : Result T E2) = .ok v)
    ∧ (∀ (v : T) (d : D),
      (OptionExt.context (some v : Option T) d : Result T E3) = .ok v)
    ∧ (∀ (v : T) (f : Unit → D),
      (OptionExt.with_context (some v : Option T) f : Result T E3) = .ok v)
    ∧ (∀ (v : T) (f : Unit → C) (n : Nat),
      (ResultExt.with_contextS (.ok v : Result T E) (tick f) n : Result T E2 × Nat)
        = (.ok v, n))
    ∧ (∀ (v : T) (f : Unit → D) (n : Nat),
      (OptionExt.with_contextS (some v : Option T) (tick f) n : Result T E3 × Nat)
        = (.ok v, n)) :=
  ⟨fun _ _ => rfl, fun _ _ => rfl, fun _ _ => rfl, fun _ _ => rfl,
    fun _ _ _ => rfl, fun _ _ _ => rfl⟩

/-- Claim C3: the backtrace enablement decision consults the first environment
variable and only if it is absent the second, yields `true` only when the
consulted value textually equals the enabled marker, is made exactly once per
process at the first backtrace request, and changing the environment
afterwards has no effect: every later request, whatever environment it sees,
answers from the memoized flag and leaves the state untouched. -/
theorem claim3_backtrace_decision_once_per_process (env1 : Env) (envs : List Env) :
    (computeEnabled env1 =
      match env1 rustLibBacktraceVar with
      | some v => v == enabledMarker
      | none =>
        match env1 rustBacktraceVar with
        | some v => v == enabledMarker
        | none => false)
    ∧ (generateOptionBacktrace env1 BacktraceState.init).2
        = ⟨true, computeEnabled env1⟩
    ∧ (generateOptionBacktrace env1 BacktraceState.init).1.isSome
        = computeEnabled env1
    ∧ ((runGenerates envs (generateOptionBacktrace env1 BacktraceState.init).2).1.all
        (fun r => r.isSome == computeEnabled env1) = true)
    ∧ (runGenerates envs (generateOptionBacktrace env1 BacktraceState.init).2).2
        = (generateOptionBacktrace env1 BacktraceState.init).2 := by
  have henv : computeEnabled env1 =
      match env1 rustLibBacktraceVar with
      | some v => v == enabledMarker
      | none =>
        match env1 rustBacktraceVar with
        | some v => v == enabledMarker
        | none => false := by
    unfold computeEnabled
    cases env1 rustLibBacktraceVar <;> cases env1 rustBacktraceVar <;> rfl
  have hstate : (generateOptionBacktrace env1 BacktraceState.init).2
      = ⟨true, computeEnabled env1⟩ := by
    simp [generateOptionBacktrace, callOnce, BacktraceState.init]
  refine ⟨henv, hstate, ?_, ?_, ?_⟩
  · cases h : computeEnabled env1 <;>
      simp [generateOptionBacktrace, callOnce, BacktraceState.init, h]
  · rw [hstate, runGenerates_from_started]
    cases h : computeEnabled env1 <;> simp [List.all_eq_true, h]
  · rw [hstate, runGenerates_from_started]

/-- Claim C4: `ensure(predicate, selector)` returns control normally if and
only if the predicate is true; when it is false it produces exactly the error
that combining the selector with the `NoneError` cause yields, converted
through the enclosing function's error type by the `into` conversion, and
early-returns it. -/
theorem claim4_ensure_guards_and_combines
    {C E E2 : Type} [IntoError C E NoneError] [ErrorTrait E] [ErrorCompat E]
    (p : Bool) (c : C) (into : E → E2) :
    (ensure p c into = .ok () ↔ p = true)
    ∧ ensure p c into
        = (if p then .ok ()
            else .err (into (IntoError.into_error c NoneError.mk))) := by
  cases p <;> simp [ensure, fail, Result.map_err]

/-- Claim C5: `whatever(result_expr, "msg")` evaluates to the contained value
when the result is a success; when it is `Err(e)` it early-returns
`FromString::with_source` of the converted cause and the formatted message —
at the `Whatever` model, an error whose message equals the formatted string
and whose cause, unwrapped, equals `e` converted into the declared `Source`
type. -/
theorem claim5_whatever_wraps_failure {T E Src : Type}
    (bt : Option Backtrace) (into : E → Src) (msg : String) :
    (∀ v : T,
      @whateverWithSource T E (Whatever Src) Src (Whatever.fromStringImpl Src bt)
        into (.ok v) msg = .ok v)
    ∧ (∀ (E2 S : Type) (inst : FromString E2 S) (conv : E → S) (e : E),
      @whateverWithSource T E E2 S inst conv (.err e) msg
        = .err (@FromString.with_source E2 S inst (conv e) msg))
    ∧ (∀ e : E, ∃ w : Whatever Src,
      @whateverWithSource T E (Whatever Src) Src (Whatever.fromStringImpl Src bt)
        into (.err e) msg = .err w
      ∧ w.message = msg ∧ w.source = some (into e)) :=
  ⟨fun _ => rfl, fun _ _ _ _ _ => rfl,
    fun e => ⟨{ source := some (into e), message := msg, backtrace := bt },
      rfl, rfl, rfl⟩⟩

/-- Claim C6: the message-only form of `whatever` always performs an early
return (its denotation is never a success), and the produced error is built
via `FromString::without_source` — at the `Whatever` model, its message
equals the formatted string and its cause is absent. -/
theorem claim6_whatever_message_only_always_returns {T Src : Type}
    (bt : Option Backtrace) (msg : String) :
    ((@whateverMessageOnly T (Whatever Src) Src (Whatever.fromStringImpl Src bt)
        msg).isOk = false)
    ∧ (∀ (E2 S : Type) (inst : FromString E2 S),
      @whateverMessageOnly T E2 S inst msg
        = .err (@FromString.without_source E2 S inst msg))
    ∧ (∃ w : Whatever Src,
      @whateverMessageOnly T (Whatever Src) Src (Whatever.fromStringImpl Src bt)
        msg = .err w
      ∧ w.message = msg ∧ w.source = none) :=
  ⟨rfl, fun _ _ _ => rfl,
    ⟨{ source := none, message := msg, backtrace := bt }, rfl, rfl, rfl⟩⟩

/-- Claim C7: for every failing result (and absent option) passed through
`with_context`, the instrumented context-construction closure is invoked
exactly once — its counter advances by one — and only after the failure is
known: on a success it is not invoked at all. -/
theorem claim7_with_context_invokes_closure_once_on_failure
    {T E C E2 D E3 : Type} [IntoError C E2 E] [ErrorTrait E2] [ErrorCompat E2]
    [IntoError D E3 NoneError] [ErrorTrait E3] [ErrorCompat E3] :
    (∀ (e : E) (f : Unit → C) (n : Nat),
      (ResultExt.with_contextS (.err e : Result T E) (tick f) n : Result T E2 × Nat)
        = (.err (IntoError.into_error (f ()) e), n + 1))
    ∧ (∀ (v : T) (f : Unit → C) (n : Nat),
      (ResultExt.with_contextS (.ok v : Result T E) (tick f) n : Result T E2 × Nat)
        = (.ok v, n))
    ∧ (∀ (f : Unit → D) (n : Nat),
      (OptionExt.with_contextS (none : Option T) (tick f) n : Result T E3 × Nat)
        = (.err (IntoError.into_error (f ()) NoneError.mk), n + 1))
    ∧ (∀ (v : T) (f : Unit → D) (n : Nat),
      (OptionExt.with_contextS (some v : Option T) (tick f) n : Result T E3 × Nat)
        = (.ok v, n)) :=
  ⟨fun _ _ _ => rfl, fun _ _ _ => rfl, fun _ _ => rfl, fun _ _ _ => rfl⟩

/-- Claim C8: the deprecated alias operations `eager_context` and
`with_eager_context`, on both results and options, return exactly the same
value as `context` and `with_context` respectively, for every input. -/
theorem claim8_deprecated_aliases_agree
    {T E C E2 D E3 : Type} [IntoError C E2 E] [ErrorTrait E2] [ErrorCompat E2]
    [IntoError D E3 NoneError] [ErrorTrait E3] [ErrorCompat E3] :
    (∀ (r : Result T E) (c : C),
      (ResultExt.eager_context r c : Result T E2) = ResultExt.context r c)
    ∧ (∀ (r : Result T E) (f : Unit → C),
      (ResultExt.with_eager_context r f : Result T E2) = ResultExt.with_context r f)
    ∧ (∀ (o : Option T) (d : D),
      (OptionExt.eager_context o d : Result T E3) = OptionExt.context o d)
    ∧ (∀ (o : Option T) (f : Unit → D),
      (OptionExt.with_eager_context o f : Result T E3) = OptionExt.with_context o f) := by
  refine ⟨fun _ _ => rfl, fun _ _ => rfl, ?_, ?_⟩
  · intro o d
    cases o <;> rfl
  · intro o f
    cases o <;> rfl

/-- Claim C9: for every absent option, `OptionExt::whatever_context` and
`with_whatever_context` build the error via `FromString::without_source`, so
at the `Whatever` model the resulting fallback error stores no cause; in the
lazy variant the instrumented message-producing closure is invoked exactly
once when the option is absent and not at all when it is present. -/
theorem claim9_option_whatever_context_stores_no_cause {T Src : Type}
    (bt : Option Backtrace) (msg : String) (f : Unit → String) (n : Nat) :
    (∀ (E S : Type) (inst : FromString E S),
      @OptionExt.whatever_context T E S inst (none : Option T) msg
        = .err (@FromString.without_source E S inst msg))
    ∧ (∃ w : Whatever Src,
      @OptionExt.whatever_context T (Whatever Src) Src
        (Whatever.fromStringImpl Src bt) (none : Option T) msg = .err w
      ∧ w.source = none ∧ w.message = msg)
    ∧ (∃ w : Whatever Src,
      @OptionExt.with_whatever_contextS T (Whatever Src) Src Nat
        (Whatever.fromStringImpl Src bt) (none : Option T) (tick f) n
        = (.err w, n + 1)
      ∧ w.source = none ∧ w.message = f ())
    ∧ (∀ v : T,
      @OptionExt.with_whatever_contextS T (Whatever Src) Src Nat
        (Whatever.fromStringImpl Src bt) (some v : Option T) (tick f) n
        = (.ok v, n)) :=
  ⟨fun _ _ _ => rfl,
    ⟨{ source := none, message := msg, backtrace := bt }, rfl, rfl, rfl⟩,
    ⟨{ source := none, message := f (), backtrace := bt }, rfl, rfl, rfl⟩,
    fun _ => rfl⟩

/-- Claim C10: for every value of a type with the error capability, and for
each of the four dynamic trait-object combinations with thread-safety
markers, `as_error_source` is the identity view: it returns the receiver's
own error object, performing no transformation of the error value. -/
theorem claim10_as_error_source_is_identity_view :
    (∀ e : ErrorObj, dynAsErrorSource e = e)
    ∧ (∀ e : DynErrorSend, dynSendAsErrorSource e = e.obj)
    ∧ (∀ e : DynErrorSync, dynSyncAsErrorSource e = e.obj)
    ∧ (∀ e : DynErrorSendSync, dynSendSyncAsErrorSource e = e.obj)
    ∧ (∀ (α : Type) (inst : ErrorTrait α) (x : α),
      @as_error_source α inst x = ErrorObj.mk α x inst) :=
  ⟨fun _ => rfl, fun _ => rfl, fun _ => rfl, fun _ => rfl, fun _ _ _ => rfl⟩

end Snafu
